import Mathlib

/-!
Verification development for the Face-Tracker repository
(`src/components/FaceTracker.tsx`). The React component is embedded
shallowly: React state and the relevant DOM/platform state are collected in
`ComponentState`; each handler or effect of the component becomes a pure
function on that state, with the fallible platform calls (model loading,
`getUserMedia`, `MediaRecorder` construction, the per-frame detection call)
made explicit as boolean/`Except` environment parameters. Machine numbers
are modelled as `Int`/`ℚ`.
-/

namespace FaceTracker

/-- The two detector kinds of the `FaceDetection` type (`type:
'tensorflow' | 'native'`). -/
inductive DetectorType
  | tensorflow
  | native
  deriving DecidableEq, Repr

/-- The `detectionStats` React state: `{ totalDetections, avgConfidence }`.
`totalDetections` is a JS number used as a counter, modelled as `Int` so
that non-negativity is a real statement; `avgConfidence` is a ratio,
modelled as `ℚ`. -/
structure DetectionStats where
  totalDetections : Int
  avgConfidence : ℚ
  deriving DecidableEq, Repr

/-- The `Face` record consumed by `detectFaces`: every field is optional in
the source. `probability` models the `probability` array of a
TensorFlow-style prediction (the source reads `face.probability[0]`;
BlazeFace produces a one-element array, and we read the head, defaulting to
1 when the whole array is absent, exactly as `face.probability ?
face.probability[0] : 1` does on the arrays BlazeFace produces). -/
structure Face where
  topLeft : Option (ℚ × ℚ)
  bottomRight : Option (ℚ × ℚ)
  probability : Option (List ℚ)
  landmarks : Option (List (ℚ × ℚ))
  boundingBox : Option (ℚ × ℚ × ℚ × ℚ)
  deriving DecidableEq, Repr

/-- A track of a `MediaStream`; `stopped` records whether `track.stop()`
has been called on it. -/
structure MediaTrack where
  stopped : Bool
  deriving DecidableEq, Repr

/-- A camera `MediaStream`: its list of tracks. -/
structure MediaStream where
  tracks : List MediaTrack
  deriving DecidableEq, Repr

/-- The state field of a `MediaRecorder`. -/
inductive RecorderState
  | inactive
  | recording
  | paused
  deriving DecidableEq, Repr

/-- A `MediaRecorder` object, as far as the component observes it. -/
structure Recorder where
  state : RecorderState
  deriving DecidableEq, Repr

/-- The state of the component: the React `useState` cells (`isLoading`,
`error`, `faceDetector`, `isRecording`, `mediaRecorder`, `faceCount`,
`detectionStats`), the `animationFrameRef` ref, and the DOM/platform state
the claims are about (`videoSrcObject`, the stream attached to the video
element; `frameCancelled`, whether `cancelAnimationFrame` was invoked on
the pending handle during teardown). -/
structure ComponentState where
  isLoading : Bool
  error : String
  faceDetector : Option DetectorType
  isRecording : Bool
  mediaRecorder : Option Recorder
  faceCount : Int
  detectionStats : DetectionStats
  animationFrameRef : Nat
  frameCancelled : Bool
  videoSrcObject : Option MediaStream
  deriving DecidableEq, Repr

/-- The initial state on mount: `useState(true)`, `useState('')`,
`useState(null)`, `useState(false)`, `useState(null)`, `useState(0)`,
`useState({ totalDetections: 0, avgConfidence: 0 })`, `useRef(0)`. -/
def initialState : ComponentState :=
  { isLoading := true
    error := ""
    faceDetector := none
    isRecording := false
    mediaRecorder := none
    faceCount := 0
    detectionStats := { totalDetections := 0, avgConfidence := 0 }
    animationFrameRef := 0
    frameCancelled := false
    videoSrcObject := none }

/-! ## Detection statistics (`detectFaces`, lines 146-197) -/

/-- Per-face confidence as computed in the `faces.forEach` body: it starts
at 1; on the tensorflow path it becomes `face.probability ?
face.probability[0] : 1`; on the native path it stays 1. -/
def confidenceOf : DetectorType → Face → ℚ
  | DetectorType.tensorflow, f =>
      match f.probability with
      | some ps => ps.headD 1
      | none => 1
  | DetectorType.native, _ => 1

/-- `totalConfidence` after the `forEach` over `faces`. -/
def totalConfidence (dtype : DetectorType) (faces : List Face) : ℚ :=
  (faces.map (confidenceOf dtype)).sum

/-- The state update of a successfully processed detection frame (lines
164-197): `setFaceCount(faces.length)`, then, only when `faces.length > 0`,
`setDetectionStats(prev => ({ totalDetections: prev.totalDetections +
faces.length, avgConfidence: totalConfidence / faces.length }))`. -/
def detectApplyStats (dtype : DetectorType) (faces : List Face)
    (s : ComponentState) : ComponentState :=
  let s1 := { s with faceCount := (faces.length : Int) }
  if faces.length > 0 then
    { s1 with detectionStats :=
        { totalDetections := s1.detectionStats.totalDetections + faces.length
          avgConfidence := totalConfidence dtype faces / faces.length } }
  else s1

/-- The per-call environment of `detectFaces`: whether the video and canvas
refs are populated, `video.readyState`, whether `canvas.getContext('2d')`
returns a context, and the outcome of the awaited detection call (`.error`
when it throws, `.ok faces` otherwise; on the native path the faces are the
already-mapped bounding-box records). -/
structure FrameEnv where
  hasVideo : Bool
  hasCanvas : Bool
  readyState : Nat
  ctxOk : Bool
  detectResult : Except Unit (List Face)
  deriving Repr

/-- `detectFaces` (lines 131-205). Returns the new state together with the
number of `requestAnimationFrame` calls the invocation performed. Guard
order follows the source: the early return when
`!video || !canvas || !faceDetector || video.readyState !== 4`, the early
return when the 2D context is unavailable, the `catch` that swallows a
detection error, and the final reschedule. -/
def detectFaces (env : FrameEnv) (s : ComponentState) :
    ComponentState × Nat :=
  match s.faceDetector with
  | none => (s, 1)
  | some dtype =>
    if env.hasVideo && env.hasCanvas && env.readyState == 4 then
      if env.ctxOk then
        match env.detectResult with
        | Except.error _ => (s, 1)
        | Except.ok faces => (detectApplyStats dtype faces s, 1)
      else (s, 1)
    else (s, 1)

/-- `resetStats` (lines 422-427). -/
def resetStats (s : ComponentState) : ComponentState :=
  { s with detectionStats := { totalDetections := 0, avgConfidence := 0 } }

/-! ## Detector bootstrap (`initializeFaceDetection`, lines 62-128) -/

/-- The platform environment of detector bootstrap: whether the
TensorFlow.js import/`tf.ready()`/`blazeface.load()` chain succeeds,
whether `window.FaceDetector` exists, and whether its constructor runs
without throwing. -/
structure InitEnv where
  tfLoadOk : Bool
  hasNativeFaceDetector : Bool
  nativeCtorOk : Bool
  deriving DecidableEq, Repr

/-- Which detector initializers were attempted, in order. -/
inductive InitAttempt
  | tensorflow
  | native
  deriving DecidableEq, Repr

/-- The error message of line 73. -/
def noDetectorErrorMsg : String :=
  "Face detection not available in this browser. Please use Chrome/Edge for best results."

/-- `initializeTensorFlowDetection` (lines 77-99): on success sets the
tensorflow detector and `isLoading := false` and returns true; on any
thrown error returns false with the state untouched. -/
def initializeTensorFlowDetection (env : InitEnv) (s : ComponentState) :
    Bool × ComponentState :=
  if env.tfLoadOk then
    (true, { s with faceDetector := some DetectorType.tensorflow, isLoading := false })
  else (false, s)

/-- `initializeNativeDetection` (lines 101-125): only runs when
`window.FaceDetector` exists; constructor success sets the native detector
and `isLoading := false` and returns true; a throwing constructor or a
missing API returns false with the state untouched. -/
def initializeNativeDetection (env : InitEnv) (s : ComponentState) :
    Bool × ComponentState :=
  if env.hasNativeFaceDetector then
    if env.nativeCtorOk then
      (true, { s with faceDetector := some DetectorType.native, isLoading := false })
    else (false, s)
  else (false, s)

/-- `initializeFaceDetection` (lines 63-75): `setIsLoading(true)`; try
TensorFlow first and return on success; otherwise try the native API and
return on success; otherwise set the error and `setIsLoading(false)`.
Returns the attempted initializers in order alongside the new state. -/
def initializeFaceDetection (env : InitEnv) (s : ComponentState) :
    ComponentState × List InitAttempt :=
  let s0 := { s with isLoading := true }
  let r1 := initializeTensorFlowDetection env s0
  if r1.1 then (r1.2, [InitAttempt.tensorflow])
  else
    let r2 := initializeNativeDetection env r1.2
    if r2.1 then (r2.2, [InitAttempt.tensorflow, InitAttempt.native])
    else ({ r2.2 with error := noDetectorErrorMsg, isLoading := false },
          [InitAttempt.tensorflow, InitAttempt.native])

/-! ## Camera acquisition (`initializeCamera`, lines 324-361) -/

/-- The error message of line 354. -/
def cameraErrorMsg : String :=
  "Camera access denied or not available. Please grant camera permissions."

/-- `initializeCamera` (lines 325-357), restricted to the state it touches.
The body runs only when the video and canvas refs are populated and
`!isLoading && faceDetector`. The `try` block contains two awaited calls:
`getUserMedia` (line 340) either yields a stream, which line 341 attaches
to `video.srcObject`, or throws; after the attachment, `await video.play()`
(line 351) may itself reject, and either throw lands in the same `catch`
(lines 352-355), which sets the camera error message. So a `getUserMedia`
failure changes only the error string, while a `play()` rejection sets the
error string with the stream already attached. Returns the number of
`getUserMedia` calls performed. -/
def initializeCamera (hasVideo hasCanvas : Bool)
    (getUserMediaResult : Option MediaStream) (playOk : Bool)
    (s : ComponentState) : ComponentState × Nat :=
  if hasVideo && hasCanvas && !s.isLoading && s.faceDetector.isSome then
    match getUserMediaResult with
    | some stream =>
        if playOk then ({ s with videoSrcObject := some stream }, 1)
        else ({ s with videoSrcObject := some stream,
                       error := cameraErrorMsg }, 1)
    | none => ({ s with error := cameraErrorMsg }, 1)
  else (s, 0)

/-! ## Recording (`startRecording` lines 372-412, `stopRecording` lines
414-420, `recorder.onstop` lines 391-403) -/

/-- The error message of line 410. -/
def recordingErrorMsg : String :=
  "Recording not supported in this browser"

/-- `startRecording` (lines 372-412): returns immediately when the canvas
ref is empty; otherwise enters the `try` once — `canvas.captureStream(60)`
followed by the `MediaRecorder` construction either succeeds, after which
`recorder.start(1000)`, `setMediaRecorder(recorder)` and
`setIsRecording(true)` run, or throws, and the `catch` sets the recording
error message and nothing else. Returns the number of times the `try`
block was entered. -/
def startRecording (hasCanvas recorderCtorOk : Bool) (s : ComponentState) :
    ComponentState × Nat :=
  if hasCanvas then
    if recorderCtorOk then
      ({ s with mediaRecorder := some { state := RecorderState.recording }
                isRecording := true }, 1)
    else ({ s with error := recordingErrorMsg }, 1)
  else (s, 0)

/-- `stopRecording` (lines 414-420): only when `mediaRecorder` is non-null
and its state is not `'inactive'` does it call `mediaRecorder.stop()`
(the returned flag), clear `mediaRecorder` and clear `isRecording`. -/
def stopRecording (s : ComponentState) : ComponentState × Bool :=
  match s.mediaRecorder with
  | some r =>
      if r.state ≠ RecorderState.inactive then
        ({ s with mediaRecorder := none, isRecording := false }, true)
      else (s, false)
  | none => (s, false)

/-- A data chunk handed to `ondataavailable` (`event.data`); only its size
matters to the collection logic. `payload` keeps chunks distinguishable. -/
structure BlobChunk where
  size : Nat
  payload : String
  deriving DecidableEq, Repr

/-- The chunk list built by `ondataavailable` (lines 385-389) over the
events fired during a recording, in arrival order: a chunk is pushed
exactly when `event.data.size > 0`. -/
def collectedChunks (events : List BlobChunk) : List BlobChunk :=
  events.filter (fun e => 0 < e.size)

/-- The blob assembled by `onstop` (line 392). -/
structure RecordedBlob where
  parts : List BlobChunk
  mimeType : String
  deriving DecidableEq, Repr

/-- `onstop` (lines 391-403), data part: `new Blob(chunks, { type:
'video/webm' })`. -/
def onStopBlob (events : List BlobChunk) : RecordedBlob :=
  { parts := collectedChunks events, mimeType := "video/webm" }

/-- The download filename of line 397:
`face-tracking-${isoTimestamp.slice(0, 19).replace(/:/g, '-')}.webm`,
as a function of the ISO timestamp string. -/
def downloadName (iso : String) : String :=
  "face-tracking-" ++ (iso.take 19).replace ":" "-" ++ ".webm"

/-! ## Teardown (`useEffect` cleanup, lines 363-369) -/

/-- The cleanup returned by the camera `useEffect` (lines 364-368): when
`animationFrameRef.current` is truthy (non-zero), `cancelAnimationFrame`
is called on it; nothing else happens — in particular the stream attached
to `video.srcObject` is not touched. -/
def useEffectCleanup (s : ComponentState) : ComponentState :=
  if s.animationFrameRef ≠ 0 then { s with frameCancelled := true } else s

/-- The tracks of the stream currently attached to the video element. -/
def attachedTracks (s : ComponentState) : List MediaTrack :=
  match s.videoSrcObject with
  | some stream => stream.tracks
  | none => []

/-! ## Traces of component actions -/

/-- One externally triggered operation of the component, with the platform
environment it runs against. -/
inductive Action
  | init (env : InitEnv)
  | camera (hasVideo hasCanvas : Bool) (getUserMediaResult : Option MediaStream)
      (playOk : Bool)
  | frame (env : FrameEnv)
  | startRec (hasCanvas recorderCtorOk : Bool)
  | stopRec
  | reset
  | teardown

/-- The state transition of one action. -/
def step (s : ComponentState) : Action → ComponentState
  | Action.init env => (initializeFaceDetection env s).1
  | Action.camera hv hc gum pok => (initializeCamera hv hc gum pok s).1
  | Action.frame env => (detectFaces env s).1
  | Action.startRec hc ok => (startRecording hc ok s).1
  | Action.stopRec => (stopRecording s).1
  | Action.reset => resetStats s
  | Action.teardown => useEffectCleanup s

/-- The state after a sequence of actions from the mount state. -/
def run (actions : List Action) : ComponentState :=
  actions.foldl step initialState

/-! ## Canvas drawing (`drawAdvancedBoundingBox` lines 208-302,
`drawFaceLandmarks` lines 305-321)

The canvas context is modelled as a trace of drawing operations. Colour
strings built from computed alphas are kept structured (`Paint.rgba`);
`Date.now() / 1000` becomes the explicit `time` argument; `Math.sin` and
`ctx.measureText(...).width` become the explicit function arguments `sinq`
and `measureWidth` (both environment-supplied, deterministic functions).
Angles of `arc` are recorded in units of π radians, so the full circle
`0 .. 2π` is `0 .. 2`. -/

/-- A paint value assigned to a stroke/fill/shadow style. A gradient stop
is an offset together with the rgba channels of its colour. -/
inductive Paint
  | rgba (r g b : Nat) (a : ℚ)
  | hex (code : String)
  | linearGradient (x0 y0 x1 y1 : ℚ) (stops : List (ℚ × Nat × Nat × Nat × ℚ))
  deriving DecidableEq, Repr

/-- One canvas-context drawing operation issued by the component. -/
inductive CanvasOp
  | clearRect (x y w h : ℚ)
  | drawImage (x y w h : ℚ)
  | setStrokeStyle (p : Paint)
  | setLineWidth (w : ℚ)
  | setShadowColor (p : Paint)
  | setShadowBlur (b : ℚ)
  | beginPath
  | moveTo (x y : ℚ)
  | lineTo (x y : ℚ)
  | stroke
  | setFont (f : String)
  | setFillStyle (p : Paint)
  | fillRect (x y w h : ℚ)
  | fillText (text : String) (x y : ℚ)
  | arc (x y radius startAngle endAngle : ℚ)
  | fill
  deriving DecidableEq, Repr

/-- JS `Math.round`: round half toward positive infinity,
`Math.round(x) = floor(x + 0.5)`. -/
def jsRound (q : ℚ) : Int := ⌊q + 1/2⌋

/-- The fractional part `q % 1` (for the non-negative clock values the
component feeds it, JS `%` agrees with `q - floor q`). -/
def fracPart (q : ℚ) : ℚ := q - ⌊q⌋

/-- The confidence-based colour of line 219. -/
def confidenceColor (confidence : ℚ) : Paint :=
  if confidence > 4/5 then Paint.hex "#00ff00"
  else if confidence > 3/5 then Paint.hex "#ffff00"
  else Paint.hex "#ff9500"

/-- The rgb channels interpolated into the stroke style of line 222. -/
def strokeChannels (confidence : ℚ) : Nat × Nat × Nat :=
  if confidence > 4/5 then (0, 255, 0)
  else if confidence > 3/5 then (255, 255, 0)
  else (255, 149, 0)

/-- `drawAdvancedBoundingBox` (lines 208-302) as the sequence of context
operations it issues, in source order. `time` is the `Date.now() / 1000`
reading of line 217; `sinq` stands for `Math.sin`; `measureWidth` stands
for `ctx.measureText(·).width` under the font set on line 273. -/
def drawAdvancedBoundingBox (sinq : ℚ → ℚ) (measureWidth : String → ℚ)
    (time x y width height : ℚ) (label : String) (confidence : ℚ) :
    List CanvasOp :=
  let pulse := sinq (time * 3) * (1/2) + 1/2
  let cc := confidenceColor confidence
  let ch := strokeChannels confidence
  let cornerSize := min width height * (3/20)
  let scanY := y + height * fracPart (time * 2)
  let confidenceText := toString (jsRound (confidence * 100)) ++ "%"
  let labelText := label ++ " ‚Ä¢ " ++ confidenceText
  let labelWidth := measureWidth labelText + 16
  let labelHeight : ℚ := 24
  let barWidth := labelWidth - 16
  let barHeight : ℚ := 3
  let barY := y - 8
  [ CanvasOp.setStrokeStyle (Paint.rgba ch.1 ch.2.1 ch.2.2 (7/10 + pulse * (3/10)))
  , CanvasOp.setLineWidth 3
  , CanvasOp.setShadowColor cc
  , CanvasOp.setShadowBlur (15 + pulse * 10)
  , CanvasOp.setLineWidth 4
  , CanvasOp.beginPath
  , CanvasOp.moveTo x (y + cornerSize)
  , CanvasOp.lineTo x y
  , CanvasOp.lineTo (x + cornerSize) y
  , CanvasOp.stroke
  , CanvasOp.beginPath
  , CanvasOp.moveTo (x + width - cornerSize) y
  , CanvasOp.lineTo (x + width) y
  , CanvasOp.lineTo (x + width) (y + cornerSize)
  , CanvasOp.stroke
  , CanvasOp.beginPath
  , CanvasOp.moveTo x (y + height - cornerSize)
  , CanvasOp.lineTo x (y + height)
  , CanvasOp.lineTo (x + cornerSize) (y + height)
  , CanvasOp.stroke
  , CanvasOp.beginPath
  , CanvasOp.moveTo (x + width - cornerSize) (y + height)
  , CanvasOp.lineTo (x + width) (y + height)
  , CanvasOp.lineTo (x + width) (y + height - cornerSize)
  , CanvasOp.stroke
  , CanvasOp.setStrokeStyle (Paint.rgba 0 255 255 (1/2 + pulse * (1/2)))
  , CanvasOp.setLineWidth 2
  , CanvasOp.beginPath
  , CanvasOp.moveTo x scanY
  , CanvasOp.lineTo (x + width) scanY
  , CanvasOp.stroke
  , CanvasOp.setShadowBlur 0
  , CanvasOp.setFont "bold 14px \"Courier New\", monospace"
  , CanvasOp.setFillStyle (Paint.linearGradient x (y - labelHeight - 5) x (y - 5)
      [(0, 0, 0, 0, 4/5), (1, 0, 0, 0, 3/5)])
  , CanvasOp.fillRect x (y - labelHeight - 5) labelWidth labelHeight
  , CanvasOp.setFillStyle cc
  , CanvasOp.fillText labelText (x + 8) (y - 12)
  , CanvasOp.setFillStyle (Paint.rgba 255 255 255 (1/5))
  , CanvasOp.fillRect (x + 8) barY barWidth barHeight
  , CanvasOp.setFillStyle cc
  , CanvasOp.fillRect (x + 8) barY (barWidth * confidence) barHeight ]

/-- `drawFaceLandmarks` (lines 305-321) as the sequence of context
operations it issues, in source order. -/
def drawFaceLandmarks (sinq : ℚ → ℚ) (time : ℚ)
    (landmarks : List (ℚ × ℚ)) : List CanvasOp :=
  let pulse := sinq (time * 4) * (1/2) + 1/2
  let size := 2 + pulse
  [ CanvasOp.setFillStyle (Paint.rgba 255 0 150 (4/5 + pulse * (1/5)))
  , CanvasOp.setShadowColor (Paint.hex "#ff0096")
  , CanvasOp.setShadowBlur 8 ]
  ++ (landmarks.flatMap fun lm =>
      [CanvasOp.beginPath, CanvasOp.arc lm.1 lm.2 size 0 2, CanvasOp.fill])
  ++ [CanvasOp.setShadowBlur 0]

/-! ## Theorems -/

/-- C2: detector bootstrap is a strict two-step fallback —
`initializeFaceDetection` tries the TensorFlow.js detector first, attempts
the native `FaceDetector` exactly when the TensorFlow attempt returned
false, sets the `Face detection not available` error precisely when both
attempts fail, and ends with `isLoading = false` in every outcome. -/
theorem bootstrap_two_step_fallback (env : InitEnv) (s : ComponentState)
    (herr : s.error = "") :
    (initializeFaceDetection env s).1.isLoading = false ∧
    (InitAttempt.native ∈ (initializeFaceDetection env s).2 ↔
      env.tfLoadOk = false) ∧
    ((initializeFaceDetection env s).1.error = noDetectorErrorMsg ↔
      (env.tfLoadOk = false ∧
        (env.hasNativeFaceDetector && env.nativeCtorOk) = false)) := by
  unfold initializeFaceDetection initializeTensorFlowDetection
    initializeNativeDetection
  rcases env with ⟨tf, hn, nc⟩
  cases tf <;> cases hn <;> cases nc <;>
    simp_all [noDetectorErrorMsg]

/-- Witness for C2 at a concrete environment where both attempts fail. -/
theorem bootstrap_two_step_fallback_witness :
    (initializeFaceDetection ⟨false, false, false⟩ initialState).1.isLoading = false ∧
    (InitAttempt.native ∈ (initializeFaceDetection ⟨false, false, false⟩ initialState).2 ↔
      (⟨false, false, false⟩ : InitEnv).tfLoadOk = false) ∧
    ((initializeFaceDetection ⟨false, false, false⟩ initialState).1.error = noDetectorErrorMsg ↔
      ((⟨false, false, false⟩ : InitEnv).tfLoadOk = false ∧
        ((⟨false, false, false⟩ : InitEnv).hasNativeFaceDetector &&
          (⟨false, false, false⟩ : InitEnv).nativeCtorOk) = false)) :=
  bootstrap_two_step_fallback ⟨false, false, false⟩ initialState rfl

/-- C7: stopping a recording assembles exactly the non-empty data chunks,
in arrival order, into a blob of MIME type `video/webm`, and the download
filename ends in `.webm`. -/
theorem recording_stop_produces_webm (events : List BlobChunk) (iso : String) :
    (onStopBlob events).mimeType = "video/webm" ∧
    (onStopBlob events).parts = events.filter (fun e => 0 < e.size) ∧
    List.Sublist (onStopBlob events).parts events ∧
    ∃ p, downloadName iso = p ++ ".webm" := by
  refine ⟨rfl, rfl, ?_, ⟨"face-tracking-" ++ (iso.take 19).replace ":" "-", rfl⟩⟩
  exact List.filter_sublist events

/-- C8: a successfully processed detection frame with zero faces leaves
`detectionStats` entirely unchanged and sets `faceCount` to 0. -/
theorem zero_faces_frame_effect (dtype : DetectorType) (s : ComponentState) :
    detectApplyStats dtype [] s = { s with faceCount := 0 } ∧
    (detectApplyStats dtype [] s).detectionStats = s.detectionStats ∧
    (detectApplyStats dtype [] s).faceCount = 0 := by
  refine ⟨?_, ?_, ?_⟩ <;> simp [detectApplyStats]

/-- C9: every invocation of `detectFaces` — failed preconditions, missing
2D context, a throwing detection call, or success — requests exactly one
new animation frame. -/
theorem detect_loop_always_reschedules (env : FrameEnv) (s : ComponentState) :
    (detectFaces env s).2 = 1 := by
  unfold detectFaces
  rcases h : s.faceDetector with _ | dtype
  · rfl
  · dsimp only
    split
    · split
      · rcases env.detectResult with _ | faces <;> rfl
      · rfl
    · rfl

/-- C10: `stopRecording` is a no-op when `mediaRecorder` is null or
inactive, and otherwise issues `stop()`, clears `mediaRecorder` and clears
`isRecording`. -/
theorem stop_recording_cases (s : ComponentState) :
    (s.mediaRecorder = none → stopRecording s = (s, false)) ∧
    (∀ r : Recorder, s.mediaRecorder = some r →
      r.state = RecorderState.inactive → stopRecording s = (s, false)) ∧
    (∀ r : Recorder, s.mediaRecorder = some r →
      r.state ≠ RecorderState.inactive →
      stopRecording s =
        ({ s with mediaRecorder := none, isRecording := false }, true)) := by
  refine ⟨?_, ?_, ?_⟩
  · intro h; simp [stopRecording, h]
  · intro r h hin; simp [stopRecording, h, hin]
  · intro r h hin; simp [stopRecording, h, hin]

/-- Witness for C10 at a concrete active-recorder state. -/
theorem stop_recording_cases_witness :
    stopRecording { initialState with
        mediaRecorder := some { state := RecorderState.recording }
        isRecording := true } =
      ({ { initialState with
            mediaRecorder := some { state := RecorderState.recording }
            isRecording := true } with
          mediaRecorder := none, isRecording := false }, true) :=
  (stop_recording_cases _).2.2 { state := RecorderState.recording } rfl
    (by decide)

/-- A state with bootstrap finished and a detector installed, as left by a
successful TensorFlow initialization on mount. -/
def readyState : ComponentState :=
  { initialState with isLoading := false
                      faceDetector := some DetectorType.tensorflow }

/-- C4 counterexample: when `getUserMedia` succeeds and the subsequent
`await video.play()` (line 351) rejects, the `catch` at lines 352-355 sets
the camera error message after line 341 already attached the stream to the
video element: starting from the post-bootstrap state with no attached
stream, the failed call both sets the error string and leaves the stream
attached — the failure is left partially applied, not surfaced solely by
the error string. -/
theorem camera_play_failure_partially_applied :
    readyState.videoSrcObject = none ∧
    (initializeCamera true true (some { tracks := [{ stopped := false }] })
        false readyState).1.error = cameraErrorMsg ∧
    (initializeCamera true true (some { tracks := [{ stopped := false }] })
        false readyState).1.videoSrcObject =
      some { tracks := [{ stopped := false }] } :=
  ⟨rfl, rfl, rfl⟩

/-- C4 amended: every failure is caught and surfaced by setting the single
user-facing error string, and none triggers a retry (each operation makes
its fallible platform call at most once per invocation); both detector
attempts failing, a throwing `MediaRecorder` construction, and a failing
`getUserMedia` leave every other state field unchanged — but a rejected
`video.play()` after a successful `getUserMedia` sets the camera-denied
message with the stream already attached to the video element, so that
failure mode is left partially applied. -/
theorem failure_modes_surface_single_error (s : ComponentState) :
    (∀ env : InitEnv, s.error = "" → env.tfLoadOk = false →
      (env.hasNativeFaceDetector && env.nativeCtorOk) = false →
      initializeFaceDetection env s =
        ({ s with isLoading := false, error := noDetectorErrorMsg },
         [InitAttempt.tensorflow, InitAttempt.native])) ∧
    (∀ playOk : Bool, s.isLoading = false → s.faceDetector.isSome = true →
      initializeCamera true true none playOk s =
        ({ s with error := cameraErrorMsg }, 1)) ∧
    (∀ stream : MediaStream,
      s.isLoading = false → s.faceDetector.isSome = true →
      initializeCamera true true (some stream) false s =
        ({ s with videoSrcObject := some stream,
                  error := cameraErrorMsg }, 1)) ∧
    (startRecording true false s = ({ s with error := recordingErrorMsg }, 1)) := by
  refine ⟨?_, ?_, ?_, ?_⟩
  · rintro ⟨tf, hn, nc⟩ herr htf hnat
    cases tf <;> cases hn <;> cases nc <;>
      simp_all [initializeFaceDetection, initializeTensorFlowDetection,
        initializeNativeDetection]
  · intro playOk hld hfd
    simp [initializeCamera, hld, hfd]
  · intro stream hld hfd
    simp [initializeCamera, hld, hfd]
  · rfl

/-- Witness for C4 amended at the concrete post-bootstrap state. -/
theorem failure_modes_surface_single_error_witness :
    initializeFaceDetection ⟨false, false, false⟩ readyState =
      ({ readyState with isLoading := false, error := noDetectorErrorMsg },
       [InitAttempt.tensorflow, InitAttempt.native]) ∧
    initializeCamera true true none true readyState =
      ({ readyState with error := cameraErrorMsg }, 1) ∧
    initializeCamera true true (some { tracks := [] }) false readyState =
      ({ readyState with videoSrcObject := some { tracks := [] },
                         error := cameraErrorMsg }, 1) ∧
    startRecording true false readyState =
      ({ readyState with error := recordingErrorMsg }, 1) :=
  ⟨(failure_modes_surface_single_error readyState).1 ⟨false, false, false⟩
      rfl rfl rfl,
   (failure_modes_surface_single_error readyState).2.1 true rfl rfl,
   (failure_modes_surface_single_error readyState).2.2.1 { tracks := [] }
     rfl rfl,
   (failure_modes_surface_single_error readyState).2.2.2⟩

/-- A teardown state with a pending animation frame and a live (unstopped)
camera track attached to the video element. -/
def teardownCx : ComponentState :=
  { readyState with animationFrameRef := 7
                    videoSrcObject := some { tracks := [{ stopped := false }] } }

/-- C3 counterexample: on teardown the cleanup cancels the pending
animation frame, but the camera track attached to the video element is
still unstopped afterwards — the stream is not released, refuting the
claimed cancellation semantics. -/
theorem teardown_leaves_tracks_unstopped :
    (useEffectCleanup teardownCx).frameCancelled = true ∧
    attachedTracks (useEffectCleanup teardownCx) = [{ stopped := false }] := by
  decide

/-- C3 amended: the cleanup of the camera effect cancels the pending
animation frame when one is pending, and changes nothing else — in
particular the stream attached to the video element, and the state of its
tracks, are left exactly as they were. -/
theorem teardown_cancels_frame_only (s : ComponentState) :
    (s.animationFrameRef ≠ 0 → (useEffectCleanup s).frameCancelled = true) ∧
    (s.animationFrameRef = 0 → useEffectCleanup s = s) ∧
    (useEffectCleanup s).videoSrcObject = s.videoSrcObject ∧
    attachedTracks (useEffectCleanup s) = attachedTracks s ∧
    (useEffectCleanup s).animationFrameRef = s.animationFrameRef ∧
    (useEffectCleanup s).detectionStats = s.detectionStats ∧
    (useEffectCleanup s).faceCount = s.faceCount ∧
    (useEffectCleanup s).error = s.error ∧
    (useEffectCleanup s).isRecording = s.isRecording ∧
    (useEffectCleanup s).mediaRecorder = s.mediaRecorder := by
  unfold useEffectCleanup attachedTracks
  by_cases h : s.animationFrameRef = 0 <;> simp [h]

/-- Witness for C3 amended at the concrete teardown state. -/
theorem teardown_cancels_frame_only_witness :
    (useEffectCleanup teardownCx).frameCancelled = true ∧
    (useEffectCleanup teardownCx).videoSrcObject = teardownCx.videoSrcObject :=
  ⟨(teardown_cancels_frame_only teardownCx).1 (by decide),
   (teardown_cancels_frame_only teardownCx).2.2.1⟩

/-! ### Counter lemmas shared by the trace invariants -/

/-- A processed frame sets `faceCount` to the number of detected faces. -/
theorem detectApplyStats_faceCount (dtype : DetectorType) (faces : List Face)
    (s : ComponentState) :
    (detectApplyStats dtype faces s).faceCount = (faces.length : Int) := by
  unfold detectApplyStats
  split <;> rfl

/-- A processed frame adds the number of detected faces to
`totalDetections` (the skipped update of an empty frame adds zero). -/
theorem detectApplyStats_total (dtype : DetectorType) (faces : List Face)
    (s : ComponentState) :
    (detectApplyStats dtype faces s).detectionStats.totalDetections =
      s.detectionStats.totalDetections + (faces.length : Int) := by
  unfold detectApplyStats
  split
  · rfl
  · next h =>
    have hz : faces.length = 0 := by omega
    simp [hz]

/-- `detectFaces` either leaves the state untouched or applies
`detectApplyStats` for the installed detector. -/
theorem detectFaces_state_cases (env : FrameEnv) (s : ComponentState) :
    (detectFaces env s).1 = s ∨
    ∃ dtype faces, (detectFaces env s).1 = detectApplyStats dtype faces s := by
  unfold detectFaces
  rcases h : s.faceDetector with _ | dtype
  · exact Or.inl rfl
  · dsimp only
    split
    · split
      · rcases env.detectResult with _ | faces
        · exact Or.inl rfl
        · exact Or.inr ⟨dtype, faces, rfl⟩
      · exact Or.inl rfl
    · exact Or.inl rfl

/-- Every action preserves non-negativity of `faceCount` and
`totalDetections`. -/
theorem step_preserves_counters (s : ComponentState) (a : Action)
    (h1 : 0 ≤ s.faceCount) (h2 : 0 ≤ s.detectionStats.totalDetections) :
    0 ≤ (step s a).faceCount ∧
      0 ≤ (step s a).detectionStats.totalDetections := by
  cases a with
  | init env =>
    rcases env with ⟨tf, hn, nc⟩
    cases tf <;> cases hn <;> cases nc <;>
      simp_all [step, initializeFaceDetection, initializeTensorFlowDetection,
        initializeNativeDetection]
  | camera hv hc gum pok =>
    rcases gum with _ | stream <;> cases pok <;>
      simp_all [step, initializeCamera] <;> split <;> simp_all
  | frame env =>
    rcases detectFaces_state_cases env s with h | ⟨dtype, faces, h⟩
    · simpa [step, h] using ⟨h1, h2⟩
    · constructor
      · rw [show (step s (Action.frame env)).faceCount =
            (detectFaces env s).1.faceCount from rfl, h,
            detectApplyStats_faceCount]
        exact Int.ofNat_nonneg _
      · rw [show (step s (Action.frame env)).detectionStats =
            (detectFaces env s).1.detectionStats from rfl, h,
            detectApplyStats_total]
        have := Int.ofNat_nonneg faces.length
        omega
  | startRec hc ok =>
    cases hc <;> cases ok <;> simp_all [step, startRecording]
  | stopRec =>
    rcases h : s.mediaRecorder with _ | r <;>
      simp_all [step, stopRecording]
    split <;> simp_all
  | reset => simpa [step, resetStats] using h1
  | teardown =>
    by_cases h : s.animationFrameRef = 0 <;>
      simp_all [step, useEffectCleanup]

/-- C5: in every state reachable from the mount state by any sequence of
component actions, `faceCount` and `totalDetections` are non-negative;
moreover `totalDetections` never decreases under any action other than
`resetStats`, and `resetStats` sets it to 0. -/
theorem counters_nonneg_and_monotone :
    (∀ actions : List Action,
      0 ≤ (run actions).faceCount ∧
        0 ≤ (run actions).detectionStats.totalDetections) ∧
    (∀ (s : ComponentState) (a : Action), a ≠ Action.reset →
      s.detectionStats.totalDetections ≤
        (step s a).detectionStats.totalDetections) ∧
    (∀ s : ComponentState,
      (step s Action.reset).detectionStats.totalDetections = 0) := by
  refine ⟨?_, ?_, fun s => rfl⟩
  · have inv : ∀ (l : List Action) (s : ComponentState),
        0 ≤ s.faceCount → 0 ≤ s.detectionStats.totalDetections →
        0 ≤ (l.foldl step s).faceCount ∧
          0 ≤ (l.foldl step s).detectionStats.totalDetections := by
      intro l
      induction l with
      | nil => intro s h1 h2; exact ⟨h1, h2⟩
      | cons a l ih =>
        intro s h1 h2
        rw [List.foldl_cons]
        have := step_preserves_counters s a h1 h2
        exact ih _ this.1 this.2
    intro actions
    exact inv actions initialState (by decide) (by decide)
  · intro s a ha
    cases a with
    | init env =>
      rcases env with ⟨tf, hn, nc⟩
      cases tf <;> cases hn <;> cases nc <;>
        simp [step, initializeFaceDetection, initializeTensorFlowDetection,
          initializeNativeDetection]
    | camera hv hc gum pok =>
      rcases gum with _ | stream <;> cases pok <;>
        simp [step, initializeCamera] <;> split <;> simp
    | frame env =>
      rcases detectFaces_state_cases env s with h | ⟨dtype, faces, h⟩
      · rw [show (step s (Action.frame env)) = (detectFaces env s).1 from rfl, h]
      · rw [show (step s (Action.frame env)).detectionStats =
            (detectFaces env s).1.detectionStats from rfl, h,
            detectApplyStats_total]
        have := Int.ofNat_nonneg faces.length
        omega
    | startRec hc ok =>
      cases hc <;> cases ok <;> simp [step, startRecording]
    | stopRec =>
      rcases h : s.mediaRecorder with _ | r <;>
        simp [step, stopRecording, h]
      split <;> simp
    | reset => exact absurd rfl ha
    | teardown =>
      by_cases h : s.animationFrameRef = 0 <;>
        simp [step, useEffectCleanup, h]

/-- Witness for C5 at a concrete trace and a concrete non-reset action. -/
theorem counters_nonneg_and_monotone_witness :
    (0 ≤ (run [Action.reset]).faceCount ∧
      0 ≤ (run [Action.reset]).detectionStats.totalDetections) ∧
    readyState.detectionStats.totalDetections ≤
      (step readyState Action.stopRec).detectionStats.totalDetections ∧
    (step readyState Action.reset).detectionStats.totalDetections = 0 :=
  ⟨counters_nonneg_and_monotone.1 [Action.reset],
   counters_nonneg_and_monotone.2.1 readyState Action.stopRec
     (fun h => Action.noConfusion h),
   counters_nonneg_and_monotone.2.2 readyState⟩

/-! ### The average-confidence statistic (C1) -/

/-- A TensorFlow-style face whose one-element probability array holds the
given confidence. -/
def faceWithConfidence (c : ℚ) : Face :=
  { topLeft := some (0, 0)
    bottomRight := some (10, 10)
    probability := some [c]
    landmarks := none
    boundingBox := none }

/-- A frame environment in which all preconditions hold and detection
returns the given faces. -/
def successFrame (faces : List Face) : FrameEnv :=
  { hasVideo := true
    hasCanvas := true
    readyState := 4
    ctxOk := true
    detectResult := Except.ok faces }

/-- Mount, install the TensorFlow detector, then two one-face frames with
confidences 1 and 0. -/
def twoFrameTrace : List Action :=
  [ Action.init { tfLoadOk := true, hasNativeFaceDetector := false,
                  nativeCtorOk := false }
  , Action.frame (successFrame [faceWithConfidence 1])
  , Action.frame (successFrame [faceWithConfidence 0]) ]

/-- C1 counterexample: after two frames accumulating two detections of
confidences 1 and 0, `totalDetections` is 2 but `avgConfidence` is 0 — the
mean of the most recent frame — and not 1/2, the mean of all accumulated
detections, refuting the running-average reading. -/
theorem avg_confidence_not_running_average :
    (run twoFrameTrace).detectionStats.totalDetections = 2 ∧
    totalConfidence DetectorType.tensorflow [faceWithConfidence 1] = 1 ∧
    totalConfidence DetectorType.tensorflow [faceWithConfidence 0] = 0 ∧
    (run twoFrameTrace).detectionStats.avgConfidence = 0 ∧
    (run twoFrameTrace).detectionStats.avgConfidence ≠ (1 + 0) / 2 := by
  refine ⟨?_, ?_, ?_, ?_, ?_⟩ <;>
    norm_num [run, twoFrameTrace, step, successFrame, faceWithConfidence,
      initialState, initializeFaceDetection, initializeTensorFlowDetection,
      initializeNativeDetection, detectFaces, detectApplyStats,
      totalConfidence, confidenceOf]

/-- C1 amended: `avgConfidence` is the mean confidence of the most recent
non-empty detection frame only, while `totalDetections` accumulates across
frames: a frame carrying a non-empty face list sets `avgConfidence` to
that frame's own mean and adds the frame's face count to
`totalDetections`. -/
theorem avg_confidence_is_last_frame_mean (dtype : DetectorType)
    (faces : List Face) (s : ComponentState) (h : faces ≠ []) :
    (detectApplyStats dtype faces s).detectionStats.avgConfidence =
      totalConfidence dtype faces / (faces.length : ℚ) ∧
    (detectApplyStats dtype faces s).detectionStats.totalDetections =
      s.detectionStats.totalDetections + (faces.length : Int) := by
  have hl : 0 < faces.length := List.length_pos.mpr h
  unfold detectApplyStats
  simp [hl]

/-- Witness for C1 amended at a concrete one-face frame. -/
theorem avg_confidence_is_last_frame_mean_witness :
    (detectApplyStats DetectorType.tensorflow [faceWithConfidence 1]
        initialState).detectionStats.avgConfidence =
      totalConfidence DetectorType.tensorflow [faceWithConfidence 1] /
        (([faceWithConfidence 1] : List Face).length : ℚ) ∧
    (detectApplyStats DetectorType.tensorflow [faceWithConfidence 1]
        initialState).detectionStats.totalDetections =
      initialState.detectionStats.totalDetections +
        ((([faceWithConfidence 1] : List Face)).length : Int) :=
  avg_confidence_is_last_frame_mean DetectorType.tensorflow
    [faceWithConfidence 1] initialState (by simp)

/-! ### Determinism of the draw routines (C6) -/

/-- A fixed stand-in for `Math.sin` in concrete evaluations. -/
def sinZero : ℚ → ℚ := fun _ => 0

/-- A fixed stand-in for `ctx.measureText(·).width` in concrete
evaluations. -/
def measureZero : String → ℚ := fun _ => 0

/-- C6 counterexample: with everything else held fixed — same arguments,
same `Math.sin`, same text metrics — two invocations of
`drawAdvancedBoundingBox` at clock readings 0 and 1/4 issue different
operation sequences (the scanning line moves), so the output does not
depend on the listed inputs alone: it also depends on `Date.now()`. -/
theorem draw_depends_on_clock :
    drawAdvancedBoundingBox sinZero measureZero 0 0 0 100 100 "Face 1" 1 ≠
      drawAdvancedBoundingBox sinZero measureZero (1/4) 0 0 100 100
        "Face 1" 1 := by
  intro h
  simp only [drawAdvancedBoundingBox, sinZero, measureZero, List.cons.injEq,
    CanvasOp.moveTo.injEq] at h
  norm_num [fracPart] at h

/-- C6 amended: the draw routines are deterministic given the clock — the
operation sequences of `drawAdvancedBoundingBox` and `drawFaceLandmarks`
depend only on their arguments and on the `Date.now()` reading, and on the
clock only through the pulse phases `sin(3t)` (`sin(4t)` for landmarks)
and the scan phase `2t mod 1`: invocations whose phases agree issue
identical operations. -/
theorem draw_deterministic_given_clock (sinq : ℚ → ℚ)
    (measureWidth : String → ℚ) (t1 t2 x y width height : ℚ)
    (label : String) (confidence : ℚ) (landmarks : List (ℚ × ℚ))
    (hpulse : sinq (t1 * 3) = sinq (t2 * 3))
    (hscan : fracPart (t1 * 2) = fracPart (t2 * 2))
    (hlm : sinq (t1 * 4) = sinq (t2 * 4)) :
    drawAdvancedBoundingBox sinq measureWidth t1 x y width height label
        confidence =
      drawAdvancedBoundingBox sinq measureWidth t2 x y width height label
        confidence ∧
    drawFaceLandmarks sinq t1 landmarks = drawFaceLandmarks sinq t2 landmarks := by
  constructor
  · unfold drawAdvancedBoundingBox
    rw [hpulse, hscan]
  · unfold drawFaceLandmarks
    rw [hlm]

/-- Witness for C6 amended at equal concrete clock readings. -/
theorem draw_deterministic_given_clock_witness :
    drawAdvancedBoundingBox sinZero measureZero 0 0 0 100 100 "Face 1" 1 =
      drawAdvancedBoundingBox sinZero measureZero 0 0 0 100 100 "Face 1" 1 ∧
    drawFaceLandmarks sinZero 0 [(5, 5)] = drawFaceLandmarks sinZero 0 [(5, 5)] :=
  draw_deterministic_given_clock sinZero measureZero 0 0 0 0 100 100
    "Face 1" 1 [(5, 5)] rfl rfl rfl

end FaceTracker
